import Mathlib

/-!
Shallow embedding of the two development-server scripts of
`go-drive-duplicates` (`src/dev-server.py` and
`src/start-frontend-config.py`) and proofs about the configuration
loader, the backend reachability checks, the CORS request handler, the
interactive prompt and the bootstrap error handling.

Python values are modelled as follows: YAML mappings become partial
records (`Option` fields; a `none` field is an absent key, and reading
it models a `KeyError`), Python strings become lists of Unicode code
points (`PyStr`), exceptions and `sys.exit` become explicit outcome
constructors, and the runtime events the scripts react to (file found
or not, socket errors, operator input) become inductive outcome types
enumerating exactly the cases the `try/except` clauses distinguish.
-/

/-! ## YAML configuration documents (start-frontend-config.py) -/

/-- A parsed YAML section such as `frontend:` or `backend:`.  Each field
is `none` when the key is absent from the document. -/
structure YamlSection where
  port : Option Nat
  host : Option String
  protocol : Option String
deriving DecidableEq, Repr

/-- A parsed YAML document for `static/config/frontend.yaml`: the two
top-level sections, each possibly absent. -/
structure YamlDoc where
  frontend : Option YamlSection
  backend : Option YamlSection
deriving DecidableEq, Repr

/-- The hard-coded fallback dictionary returned by `load_config` when the
file is missing (start-frontend-config.py lines 27-36).  Note it has
`port` and `host` for both sections but no `protocol` key anywhere. -/
def defaultConfigDict : YamlDoc :=
  { frontend := some { port := some 3000, host := some "localhost", protocol := none }
  , backend := some { port := some 8080, host := some "localhost", protocol := none } }

/-- The possible outcomes of opening and parsing the configuration file,
as distinguished by the `except` clauses of `load_config`
(start-frontend-config.py lines 19-42). -/
inductive LoadOutcome
  | parsed (doc : YamlDoc)   -- `yaml.safe_load` succeeded
  | fileNotFound             -- `FileNotFoundError`
  | yamlError                -- `yaml.YAMLError`
  | otherError               -- any other `Exception`
deriving DecidableEq, Repr

/-- Result of `load_config`: either a document (with a flag recording
whether the missing-file warning was printed), or process termination
via `sys.exit`. -/
inductive LoadResult
  | ok (doc : YamlDoc) (warned : Bool)
  | exitProc (code : Nat)
deriving DecidableEq, Repr

/-- Model of `load_config` (start-frontend-config.py lines 15-42): return the
parsed document unchanged on success; return the hard-coded defaults
with a warning when the file is missing; `sys.exit(1)` on a YAML parse
error or any other exception. -/
def load_config : LoadOutcome → LoadResult
  | .parsed doc => .ok doc false
  | .fileNotFound => .ok defaultConfigDict true
  | .yamlError => .exitProc 1
  | .otherError => .exitProc 1

/-- The five-field server configuration described by the spec's data
model (§3). -/
structure ServerConfig where
  frontendHost : String
  frontendPort : Nat
  backendHost : String
  backendPort : Nat
  backendProtocol : String
deriving DecidableEq, Repr

/-- The configuration reads `main` performs before the backend check
(start-frontend-config.py lines 98-108): `config['frontend']['port']`,
`config['frontend'].get('host', 'localhost')`,
`config['backend']['host']`, `config['backend']['port']`.  A `none`
result models the `KeyError` that a missing key raises; only
`frontend.host` is read with a default. -/
def mainReadConfig (doc : YamlDoc) : Option (Nat × String × String × Nat) := do
  let f ← doc.frontend
  let port ← f.port
  let host := f.host.getD "localhost"
  let b ← doc.backend
  let bhost ← b.host
  let bport ← b.port
  pure (port, host, bhost, bport)

/-- The read of `config['backend']['protocol']` performed while printing
the backend API base URL (start-frontend-config.py line 135).  `none`
models the `KeyError` raised when the key is absent. -/
def mainBackendProtocol (doc : YamlDoc) : Option String := do
  let b ← doc.backend
  let p ← b.protocol
  pure p

/-- The full `ServerConfig` that `main` effectively assembles from a
parsed document, combining `mainReadConfig` and `mainBackendProtocol`;
`none` when any unguarded key is missing. -/
def mainLoadedConfig (doc : YamlDoc) : Option ServerConfig := do
  let (port, host, bhost, bport) ← mainReadConfig doc
  let proto ← mainBackendProtocol doc
  pure { frontendHost := host, frontendPort := port
       , backendHost := bhost, backendPort := bport
       , backendProtocol := proto }

/-- A concrete document that parses successfully but omits
`frontend.port`: `frontend: \x7bhost: myhost\x7d`, `backend:
\x7bhost: localhost, port: 8080, protocol: http\x7d`. -/
def docNoFrontendPort : YamlDoc :=
  { frontend := some { port := none, host := some "myhost", protocol := none }
  , backend := some { port := some 8080, host := some "localhost", protocol := some "http" } }

/-! ## Python string operations used by the interactive prompt -/

/-- A Python string as its sequence of Unicode code points. -/
def PyStr := List Nat
deriving DecidableEq, Repr

/-- Whitespace test on a code point, covering the ASCII whitespace
characters that `str.strip()` removes (space, tab, LF, VT, FF, CR). -/
def pyIsSpaceCp (n : Nat) : Bool := decide (n = 32 ∨ (9 ≤ n ∧ n ≤ 13))

/-- Lower-casing of one code point, modelling `str.lower()` on the
ASCII range (the only range that can compare equal to "y"/"yes"). -/
def pyLowerCp (n : Nat) : Nat := if 65 ≤ n ∧ n ≤ 90 then n + 32 else n

/-- Model of `str.lower()`. -/
def pyLower (s : PyStr) : PyStr := s.map pyLowerCp

/-- Model of `str.strip()`: drop leading and trailing whitespace. -/
def pyStrip (s : PyStr) : PyStr :=
  ((s.dropWhile pyIsSpaceCp).reverse.dropWhile pyIsSpaceCp).reverse

/-- Code points of the literal "y". -/
def yCp : PyStr := [121]

/-- Code points of the literal "yes". -/
def yesCp : PyStr := [121, 101, 115]

/-! ## Backend reachability checks -/

/-- Outcomes of `urllib.request.urlopen` on the health URL.  The first
four are the cases the `except` tuple of `check_backend_server`
(dev-server.py line 51) distinguishes: a completed response with its
final status, an `HTTPError` (status ≥ 400), a `URLError` (urllib's
`AbstractHTTPHandler.do_open` wraps request-phase `OSError`s, including
a connect timeout and a refused connection), or a directly raised
`ConnectionRefusedError`.  The last three are response-phase exceptions
that `do_open` re-raises unwrapped from `getresponse()` and that the
`except` tuple does not cover: a `TimeoutError` (`socket.timeout`) when
the backend accepts the connection but the read times out, a
`ConnectionResetError` or `http.client.RemoteDisconnected` mid-read,
and an `http.client.BadStatusLine` on a malformed answer. -/
inductive UrlopenOutcome
  | response (status : Nat)
  | httpError (status : Nat)
  | urlError
  | connectionRefused
  | readTimeout
  | connectionReset
  | badStatusLine
deriving DecidableEq, Repr

/-- Model of `check_backend_server` (dev-server.py lines 42-53): `True`
only when the request completed with status 200; the three exception
kinds listed in the `except` tuple fall through to `return False`; any
response-phase exception is outside the tuple and propagates out of
the function (modelled as `.error`, re-raising the outcome). -/
def check_backend_server : UrlopenOutcome → Except UrlopenOutcome Bool
  | .response s => .ok (s == 200)
  | .httpError _ => .ok false
  | .urlError => .ok false
  | .connectionRefused => .ok false
  | .readTimeout => .error .readTimeout
  | .connectionReset => .error .connectionReset
  | .badStatusLine => .error .badStatusLine

/-- Outcomes of `socket.connect_ex` inside `check_backend_connection`
(start-frontend-config.py lines 51-63): an errno result (0 means the
connection was established; timeouts and refusals yield a non-zero
errno), or an exception caught by the blanket `except Exception`. -/
inductive ConnectOutcome
  | errnoResult (errnoVal : Nat)
  | raisedException
deriving DecidableEq, Repr

/-- Model of `check_backend_connection` (start-frontend-config.py lines
44-63): `True` exactly when `connect_ex` returned 0; any other errno or
any caught exception yields `False`.  Totality models that the blanket
`except Exception` keeps the checker from raising. -/
def check_backend_connection : ConnectOutcome → Bool
  | .errnoResult e => e == 0
  | .raisedException => false

/-! ## The backend-unreachable gate and the interactive prompt -/

/-- What the backend-unreachable handling ends in: proceed to the
static-directory check and the bind, terminate via `sys.exit`, or
terminate with an uncaught `EOFError` from `input()` (the reply is
`none` when stdin is at EOF, i.e. the context is non-interactive). -/
inductive GateOutcome
  | proceed
  | exitCode (code : Nat)
  | uncaughtEOF
deriving DecidableEq, Repr

/-- Model of start-frontend-config.py lines 111-122: when the backend
check failed, prompt and read `input().lower().strip()`; continue only
on "y" or "yes", otherwise `sys.exit(1)`.  `reply` is `none` when
`input()` hits EOF, in which case the `EOFError` is uncaught. -/
def backendGate (backendRunning : Bool) (reply : Option PyStr) : GateOutcome :=
  if backendRunning then .proceed
  else
    match reply with
    | none => .uncaughtEOF
    | some r =>
      let response := pyStrip (pyLower r)
      if response ≠ yCp ∧ response ≠ yesCp then .exitCode 1 else .proceed

/-- Model of dev-server.py lines 70-77: the backend check result only
selects which banner to print; the script always proceeds.  The `Bool`
component records whether the warning branch was taken. -/
def devBackendGate (backendRunning : Bool) : GateOutcome × Bool :=
  if backendRunning then (.proceed, false) else (.proceed, true)

/-- Phases of `main` in start-frontend-config.py, in program order
(lines 95, 98-99, 111, 113-122, 125-128, 132, 138). -/
inductive MainPhase
  | loadConfigPhase
  | readPortsPhase
  | backendCheckPhase
  | promptPhase
  | staticCheckPhase
  | bindPhase
  | servePhase
deriving DecidableEq, Repr

/-- Program order of the phases of `main` (start-frontend-config.py). -/
def configMainPhases : List MainPhase :=
  [.loadConfigPhase, .readPortsPhase, .backendCheckPhase, .promptPhase,
   .staticCheckPhase, .bindPhase, .servePhase]

/-! ## HTTP responses and the CORS handler overrides -/

/-- One response header. -/
structure Header where
  name : String
  value : String
deriving DecidableEq, Repr

/-- Headers appended by the `end_headers` override of dev-server.py
(lines 19-30), in order: three CORS headers and three cache-disabling
headers. -/
def devCorsHeaders : List Header :=
  [ ⟨"Access-Control-Allow-Origin", "*"⟩
  , ⟨"Access-Control-Allow-Methods", "GET, POST, PUT, DELETE, OPTIONS"⟩
  , ⟨"Access-Control-Allow-Headers", "Content-Type, Authorization"⟩
  , ⟨"Cache-Control", "no-cache, no-store, must-revalidate"⟩
  , ⟨"Pragma", "no-cache"⟩
  , ⟨"Expires", "0"⟩ ]

/-- Headers appended by the `end_headers` override of
start-frontend-config.py (lines 71-77): the three CORS headers and
`Cache-Control` only — that override sends no `Pragma` and no
`Expires` header. -/
def configCorsHeaders : List Header :=
  [ ⟨"Access-Control-Allow-Origin", "*"⟩
  , ⟨"Access-Control-Allow-Methods", "GET, POST, PUT, DELETE, OPTIONS"⟩
  , ⟨"Access-Control-Allow-Headers", "Content-Type, Authorization"⟩
  , ⟨"Cache-Control", "no-cache, no-store, must-revalidate"⟩ ]

/-- Final header list of a response from the dev-server.py handler:
`send_header` buffers headers in call order and the override appends
its six headers before flushing, so the already-buffered headers
(`sent`) come first. -/
def devEndHeaders (sent : List Header) : List Header := sent ++ devCorsHeaders

/-- Final header list of a response from the start-frontend-config.py
handler. -/
def configEndHeaders (sent : List Header) : List Header := sent ++ configCorsHeaders

/-- An HTTP response: status, final header list, body bytes. -/
structure HttpResponse where
  status : Nat
  headers : List Header
  body : List Nat
deriving DecidableEq, Repr

/-- File system visible to the handler: maps a request path to the
bytes of the file it resolves to, `none` when the path does not
resolve to a file. -/
def FileSystem := String → Option (List Nat)

/-- Model of `do_OPTIONS` in dev-server.py (lines 32-35):
`send_response(200)` then `end_headers()`, no body.  `sys` are the
headers the library buffers for every response (Server, Date); the
file system and the request path are never consulted. -/
def devDoOptions (sys : List Header) (_fs : FileSystem) (_path : String) : HttpResponse :=
  { status := 200, headers := devEndHeaders sys, body := [] }

/-- Model of `do_OPTIONS` in start-frontend-config.py (lines 79-82). -/
def configDoOptions (sys : List Header) (_fs : FileSystem) (_path : String) : HttpResponse :=
  { status := 200, headers := configEndHeaders sys, body := [] }

/-- Model of the inherited `SimpleHTTPRequestHandler.do_GET` as seen
through the dev-server.py handler: 200 with the file bytes when the
path resolves, otherwise `send_error(404)` with the library's HTML
error page; both branches flush their headers through the overridden
`end_headers`.  `sys` and `sys404` are the library-buffered headers of
the respective branch (Server, Date, Content-Type, ...), `errBody` the
library's error page bytes. -/
def devDoGet (sys sys404 : List Header) (errBody : List Nat)
    (fs : FileSystem) (path : String) : HttpResponse :=
  match fs path with
  | some bytes => { status := 200, headers := devEndHeaders sys, body := bytes }
  | none => { status := 404, headers := devEndHeaders sys404, body := errBody }

/-- Model of the inherited `do_GET` as seen through the
start-frontend-config.py handler. -/
def configDoGet (sys sys404 : List Header) (errBody : List Nat)
    (fs : FileSystem) (path : String) : HttpResponse :=
  match fs path with
  | some bytes => { status := 200, headers := configEndHeaders sys, body := bytes }
  | none => { status := 404, headers := configEndHeaders sys404, body := errBody }

/-- Representative library-buffered headers of a `send_error` 404
response (`send_response` adds Server and Date, `send_error` adds
Connection, Content-Type and Content-Length; none of them is `Pragma`
or `Expires`). -/
def base404 : List Header :=
  [ ⟨"Server", "SimpleHTTP/0.6 Python/3.11"⟩
  , ⟨"Date", "Sun, 12 Oct 2025 00:00:00 GMT"⟩
  , ⟨"Connection", "close"⟩
  , ⟨"Content-Type", "text/html;charset=utf-8"⟩
  , ⟨"Content-Length", "335"⟩ ]

/-! ## Bind failures and process exit behaviour -/

/-- A Python `OSError` as the two scripts discriminate it: its `errno`
and its `str(e)` rendering. -/
structure PyOSError where
  errnoVal : Nat
  strE : String
deriving DecidableEq, Repr

/-- Substring test on character lists, modelling Python's `in` on
strings. -/
def containsSub (needle : List Char) : List Char → Bool
  | [] => needle.isEmpty
  | c :: rest => needle.isPrefixOf (c :: rest) || containsSub needle rest

/-- The diagnostics the two scripts print from their `except` blocks,
identified structurally. -/
inductive Diagnostic
  | portInUse (port : Nat)
  | bindFailure (strE : String)
  | permissionDenied (port : Nat)
  | unexpectedError (strE : String)
  | shutdownMsg
deriving DecidableEq, Repr

/-- Events that end the `try` block of `start_server` in dev-server.py
(lines 80-116): a `KeyboardInterrupt`, or an `OSError` from binding or
serving. -/
inductive DevRunEvent
  | interrupted
  | bindFailed (e : PyOSError)
deriving DecidableEq, Repr

/-- Model of the `except` handling of dev-server.py (lines 108-116):
on interrupt print the shutdown message and fall off the function
(exit status 0, modelled as `none`); on `OSError` print the
port-conflict diagnostic when `errno == 48` and a generic one
otherwise, then `sys.exit(1)` in both branches. -/
def devServeExcept : DevRunEvent → Diagnostic × Option Nat
  | .interrupted => (.shutdownMsg, none)
  | .bindFailed e =>
      if e.errnoVal = 48 then (.portInUse 3000, some 1)
      else (.bindFailure e.strE, some 1)

/-- Events that end the `try` block of `main` in
start-frontend-config.py (lines 131-152). -/
inductive ConfigRunEvent
  | interrupted
  | permissionErr
  | osErrorEvent (e : PyOSError)
  | otherException (strE : String)
deriving DecidableEq, Repr

/-- Model of the `except` handling of start-frontend-config.py (lines
140-152): every branch only prints — no branch calls `sys.exit` — so
`main` returns normally and the process exit status is 0 (`none`) for
every event, including a bind failure with "Address already in use" in
its message. -/
def configServeExcept (port : Nat) : ConfigRunEvent → Diagnostic × Option Nat
  | .interrupted => (.shutdownMsg, none)
  | .permissionErr => (.permissionDenied port, none)
  | .osErrorEvent e =>
      if containsSub "Address already in use".data e.strE.data
      then (.portInUse port, none)
      else (.bindFailure e.strE, none)
  | .otherException s => (.unexpectedError s, none)

/-! ## Working-directory effects of dev-server.py -/

/-- Process-level commands `start_server` issues, in program order.
`serveLoop` stands for the accept loop: the handler is constructed
without a `directory` argument, so it resolves every request path
against the current working directory. -/
inductive ProcCmd
  | chdirTo (dir : String)
  | printOutput
  | exitWith (code : Nat)
  | checkBackendCmd
  | printCwd
  | serveLoop
deriving DecidableEq, Repr

/-- Model of dev-server.py lines 55-106 as a command sequence: when
`static` exists, chdir into it (line 62) before any serving and never
chdir again; otherwise print and exit 1 (lines 64-65).  `printCwd` is
the `os.getcwd()` print of line 83. -/
def devStartServerScript (staticExists : Bool) : List ProcCmd :=
  if staticExists
  then [.chdirTo "static", .printOutput, .checkBackendCmd, .printCwd, .serveLoop]
  else [.printOutput, .exitWith 1]

/-- Working directory (as a component list) after running a command
sequence from `orig`. -/
def runCwd : List ProcCmd → List String → List String
  | [], cwd => cwd
  | .chdirTo d :: rest, cwd => runCwd rest (cwd ++ [d])
  | _ :: rest, cwd => runCwd rest cwd

/-- Working directory in force at each `serveLoop` command, i.e. the
base against which the accept loop resolves relative request paths. -/
def serveCwds : List ProcCmd → List String → List (List String)
  | [], _ => []
  | .chdirTo d :: rest, cwd => serveCwds rest (cwd ++ [d])
  | .serveLoop :: rest, cwd => cwd :: serveCwds rest cwd
  | _ :: rest, cwd => serveCwds rest cwd

/-- Working directory printed by each `printCwd` command. -/
def printedCwds : List ProcCmd → List String → List (List String)
  | [], _ => []
  | .chdirTo d :: rest, cwd => printedCwds rest (cwd ++ [d])
  | .printCwd :: rest, cwd => cwd :: printedCwds rest cwd
  | _ :: rest, cwd => printedCwds rest cwd

/-- The chdir operations a command sequence performs, in order. -/
def chdirOps : List ProcCmd → List String
  | [] => []
  | .chdirTo d :: rest => d :: chdirOps rest
  | _ :: rest => chdirOps rest

/-! ## Helper lemmas -/

/-- Lower-casing a code point preserves whether it is whitespace: the
only code points `pyLowerCp` moves lie in 65-90 and land in 97-122,
and neither range meets the whitespace set. -/
theorem pyIsSpaceCp_pyLowerCp (n : Nat) :
    pyIsSpaceCp (pyLowerCp n) = pyIsSpaceCp n := by
  unfold pyLowerCp pyIsSpaceCp
  split
  · next h => simp only [decide_eq_decide]; omega
  · rfl

/-- Dropping leading whitespace commutes with lower-casing. -/
theorem pyLower_dropWhile (l : List Nat) :
    (pyLower l).dropWhile pyIsSpaceCp = pyLower (l.dropWhile pyIsSpaceCp) := by
  induction l with
  | nil => rfl
  | cons a t ih =>
    simp only [pyLower, List.map_cons, List.dropWhile_cons, pyIsSpaceCp_pyLowerCp a]
    split <;> simp_all [pyLower]

/-- Reversal commutes with lower-casing. -/
theorem pyLower_reverse (l : List Nat) :
    pyLower l.reverse = (pyLower l).reverse := by
  simp [pyLower]

/-- Stripping after lower-casing equals lower-casing after stripping,
so the claim's strip-then-lower normalisation and the code's
lower-then-strip agree. -/
theorem pyStrip_pyLower (s : List Nat) :
    pyStrip (pyLower s) = pyLower (pyStrip s) := by
  unfold pyStrip
  rw [pyLower_dropWhile, ← pyLower_reverse, pyLower_dropWhile, ← pyLower_reverse]

/-- Unfolding of the backend gate in the unreachable, interactive case. -/
theorem backendGate_false_some (r : List Nat) :
    backendGate false (some r) =
      if pyStrip (pyLower r) ≠ yCp ∧ pyStrip (pyLower r) ≠ yesCp
      then .exitCode 1 else .proceed := rfl

/-! ## Claim theorems -/

/-- Claim C1, counterexample: the document `docNoFrontendPort` parses
successfully and lacks `frontend.port`, yet `load_config` returns it
unchanged (no defaults filled in) and the `config['frontend']['port']`
read in `main` fails with a `KeyError` (modelled as `none`) instead of
yielding the documented default 3000. -/
theorem c1_missing_port_counterexample :
    load_config (.parsed docNoFrontendPort) = .ok docNoFrontendPort false
  ∧ mainReadConfig docNoFrontendPort = none := ⟨rfl, rfl⟩

/-- Claim C1, amended: after a successful parse no per-field defaulting
happens except for `frontend.host`.  For documents that do supply
`frontend.port`, `backend.host`, `backend.port` and `backend.protocol`,
`main` loads exactly the document's values, with `frontend.host`
falling back to "localhost" when absent; a document omitting any of
those four keys makes the corresponding access in `main` fail with a
missing-key error. -/
theorem c1_loaded_values_amended (p bp : Nat) (hostOpt fprotoOpt : Option String)
    (bh proto : String) :
    load_config (.parsed ⟨some ⟨some p, hostOpt, fprotoOpt⟩, some ⟨some bp, some bh, some proto⟩⟩)
      = .ok ⟨some ⟨some p, hostOpt, fprotoOpt⟩, some ⟨some bp, some bh, some proto⟩⟩ false
  ∧ mainLoadedConfig ⟨some ⟨some p, hostOpt, fprotoOpt⟩, some ⟨some bp, some bh, some proto⟩⟩
      = some ⟨hostOpt.getD "localhost", p, bh, bp, proto⟩ := by
  exact ⟨rfl, rfl⟩

/-- Claim C7, counterexample: on a missing configuration file the
loader does return the hard-coded defaults without terminating, but
that dictionary has no `backend.protocol` key, so no full five-field
`ServerConfig` results: assembling one fails on the protocol read. -/
theorem c7_default_lacks_protocol_counterexample :
    load_config .fileNotFound = .ok defaultConfigDict true
  ∧ mainLoadedConfig defaultConfigDict = none := ⟨rfl, rfl⟩

/-- Claim C7, amended: for a missing configuration file the loader
emits a warning and returns the hard-coded defaults — frontend port
3000, backend port 8080, both hosts "localhost" — without terminating
the process; the returned dictionary carries no `backend.protocol`
key, so the later `config['backend']['protocol']` read in `main`
fails with a missing-key error. -/
theorem c7_missing_file_amended :
    load_config .fileNotFound = .ok defaultConfigDict true
  ∧ mainReadConfig defaultConfigDict = some (3000, "localhost", "localhost", 8080)
  ∧ mainBackendProtocol defaultConfigDict = none := ⟨rfl, rfl, rfl⟩

/-- Claim C8: when the configuration file exists but fails to parse
(`yaml.YAMLError`), `load_config` terminates the process via
`sys.exit(1)` — a non-zero exit code — rather than continuing with
defaults; the same holds for any other exception during loading. -/
theorem c8_yaml_error_exits :
    load_config .yamlError = .exitProc 1
  ∧ load_config .otherError = .exitProc 1 := ⟨rfl, rfl⟩

/-- Claim C9: when the backend is unreachable and a reply is read, the
process proceeds exactly when the reply, stripped of surrounding
whitespace and lower-cased, equals "y" (`yCp`) or "yes" (`yesCp`);
every other reply makes the gate call `sys.exit(1)`, and the prompt
phase precedes the bind phase in `main`'s program order. -/
theorem c9_prompt_decision (r : List Nat) :
    (backendGate false (some r) = .proceed ↔
      (pyLower (pyStrip r) = yCp ∨ pyLower (pyStrip r) = yesCp))
  ∧ (backendGate false (some r) = .exitCode 1 ↔
      ¬(pyLower (pyStrip r) = yCp ∨ pyLower (pyStrip r) = yesCp))
  ∧ configMainPhases.indexOf .promptPhase < configMainPhases.indexOf .bindPhase := by
  rw [← pyStrip_pyLower r]
  have hb := backendGate_false_some r
  by_cases h : pyStrip (pyLower r) = yCp ∨ pyStrip (pyLower r) = yesCp
  · have hp : backendGate false (some r) = .proceed := by
      rw [hb, if_neg]; tauto
    exact ⟨by simp [hp, h], by simp [hp, h], by decide⟩
  · have hx : backendGate false (some r) = .exitCode 1 := by
      rw [hb, if_pos (not_or.mp h)]
    exact ⟨by simp [hx, h], by simp [hx, h], by decide⟩

/-- Claim C4, counterexample: with the backend unreachable in a
non-interactive context (stdin at EOF, modelled as reply `none`), the
gate of start-frontend-config.py ends in an uncaught `EOFError` from
`input()` — the process terminates instead of continuing with a
warning. -/
theorem c4_noninteractive_counterexample :
    backendGate false none = .uncaughtEOF
  ∧ backendGate false none ≠ .proceed := by
  exact ⟨rfl, by decide⟩

/-- Claim C4, amended: when the reachability check returns false,
dev-server.py never aborts — it continues with a logged warning — while
start-frontend-config.py always prompts: with a reply it either
proceeds or exits with code 1 (aborting exactly when the operator
declines), and with stdin at EOF (non-interactive) `input()` raises an
uncaught `EOFError`, so that script does not continue. -/
theorem c4_backend_gate_amended (r : List Nat) :
    devBackendGate true = (.proceed, false)
  ∧ devBackendGate false = (.proceed, true)
  ∧ backendGate true (some r) = .proceed
  ∧ backendGate true none = .proceed
  ∧ (backendGate false (some r) = .proceed ∨ backendGate false (some r) = .exitCode 1)
  ∧ backendGate false none = .uncaughtEOF := by
  refine ⟨rfl, rfl, rfl, rfl, ?_, rfl⟩
  rw [backendGate_false_some r]
  split
  · exact Or.inr rfl
  · exact Or.inl rfl

/-- Claim C6, counterexample: a backend that accepts the connection but
lets the read time out makes `urlopen` raise a response-phase
`TimeoutError`, which the `except` tuple of dev-server.py line 51 does
not catch — `check_backend_server` propagates the exception instead of
returning a boolean, so the checker does not "never raise". -/
theorem c6_raises_counterexample :
    check_backend_server .readTimeout = .error .readTimeout
  ∧ check_backend_server .readTimeout ≠ .ok false
  ∧ check_backend_server .readTimeout ≠ .ok true := by
  refine ⟨rfl, ?_, ?_⟩ <;> simp [check_backend_server]

/-- Claim C6, amended: `check_backend_connection` never raises (its
blanket `except Exception` covers everything) and returns `true`
exactly when `connect_ex` returned 0, `false` on every other errno and
every caught exception.  `check_backend_server` returns a boolean for
the outcomes its `except` tuple covers — `true` exactly on HTTP 200,
`false` on `HTTPError`, `URLError` (including connect timeouts and
refusals) and `ConnectionRefusedError` — but propagates the
response-phase exceptions the tuple omits: a read `TimeoutError`, a
`ConnectionResetError`/`RemoteDisconnected`, or a `BadStatusLine`. -/
theorem c6_reachability_amended (o : UrlopenOutcome) (c : ConnectOutcome) :
    (check_backend_server o = .ok true ↔ o = .response 200)
  ∧ (check_backend_connection c = true ↔ c = .errnoResult 0)
  ∧ check_backend_server .urlError = .ok false
  ∧ check_backend_server .connectionRefused = .ok false
  ∧ check_backend_server (.httpError 404) = .ok false
  ∧ check_backend_server .readTimeout = .error .readTimeout
  ∧ check_backend_server .connectionReset = .error .connectionReset
  ∧ check_backend_server .badStatusLine = .error .badStatusLine
  ∧ check_backend_connection .raisedException = false
  ∧ check_backend_connection (.errnoResult 111) = false := by
  refine ⟨?_, ?_, rfl, rfl, rfl, rfl, rfl, rfl, rfl, rfl⟩
  · cases o <;> simp [check_backend_server]
  · cases c <;> simp [check_backend_connection]

/-- Claim C2, counterexample: a 404 response emitted by the
start-frontend-config.py handler (GET on a path that does not resolve)
carries the CORS headers and `Cache-Control`, but none of its headers
is `Pragma` or `Expires` — the claim requires both on every response of
the handler. -/
theorem c2_config_handler_counterexample :
    (configDoGet base404 base404 [] (fun _ => none) "/missing.html").status = 404
  ∧ Header.mk "Access-Control-Allow-Origin" "*"
      ∈ (configDoGet base404 base404 [] (fun _ => none) "/missing.html").headers
  ∧ ((configDoGet base404 base404 [] (fun _ => none) "/missing.html").headers.all
      (fun h => !(h.name == "Pragma") && !(h.name == "Expires"))) = true := by
  refine ⟨rfl, ?_, by decide⟩
  exact List.mem_append_right _ (by decide)

/-- Claim C2, amended: every response of the dev-server.py handler —
whatever headers the library buffered first, hence whatever the status,
including 404 — carries the three CORS headers, `Cache-Control`,
`Pragma` and `Expires`; every response of the start-frontend-config.py
handler carries the three CORS headers and `Cache-Control`, but that
handler adds no `Pragma` and no `Expires` header. -/
theorem c2_headers_amended (sent : List Header) :
    Header.mk "Access-Control-Allow-Origin" "*" ∈ devEndHeaders sent
  ∧ Header.mk "Access-Control-Allow-Methods" "GET, POST, PUT, DELETE, OPTIONS" ∈ devEndHeaders sent
  ∧ Header.mk "Access-Control-Allow-Headers" "Content-Type, Authorization" ∈ devEndHeaders sent
  ∧ Header.mk "Cache-Control" "no-cache, no-store, must-revalidate" ∈ devEndHeaders sent
  ∧ Header.mk "Pragma" "no-cache" ∈ devEndHeaders sent
  ∧ Header.mk "Expires" "0" ∈ devEndHeaders sent
  ∧ Header.mk "Access-Control-Allow-Origin" "*" ∈ configEndHeaders sent
  ∧ Header.mk "Access-Control-Allow-Methods" "GET, POST, PUT, DELETE, OPTIONS" ∈ configEndHeaders sent
  ∧ Header.mk "Access-Control-Allow-Headers" "Content-Type, Authorization" ∈ configEndHeaders sent
  ∧ Header.mk "Cache-Control" "no-cache, no-store, must-revalidate" ∈ configEndHeaders sent
  ∧ (configCorsHeaders.all (fun h => !(h.name == "Pragma") && !(h.name == "Expires"))) = true := by
  refine ⟨?_, ?_, ?_, ?_, ?_, ?_, ?_, ?_, ?_, ?_, by decide⟩ <;>
    exact List.mem_append_right _ (by decide)

/-- Claim C5: an OPTIONS request to either handler yields status 200
with an empty body and the CORS headers present, and the result is
independent of the file system and of the request path — the
short-circuit happens before any file resolution, so the preflight
succeeds regardless of path existence. -/
theorem c5_options_preflight (sys : List Header) (fs fs2 : FileSystem) (path path2 : String) :
    (devDoOptions sys fs path).status = 200
  ∧ (devDoOptions sys fs path).body = []
  ∧ Header.mk "Access-Control-Allow-Origin" "*" ∈ (devDoOptions sys fs path).headers
  ∧ Header.mk "Access-Control-Allow-Methods" "GET, POST, PUT, DELETE, OPTIONS" ∈ (devDoOptions sys fs path).headers
  ∧ Header.mk "Access-Control-Allow-Headers" "Content-Type, Authorization" ∈ (devDoOptions sys fs path).headers
  ∧ devDoOptions sys fs path = devDoOptions sys fs2 path2
  ∧ (configDoOptions sys fs path).status = 200
  ∧ (configDoOptions sys fs path).body = []
  ∧ Header.mk "Access-Control-Allow-Origin" "*" ∈ (configDoOptions sys fs path).headers
  ∧ Header.mk "Access-Control-Allow-Methods" "GET, POST, PUT, DELETE, OPTIONS" ∈ (configDoOptions sys fs path).headers
  ∧ Header.mk "Access-Control-Allow-Headers" "Content-Type, Authorization" ∈ (configDoOptions sys fs path).headers
  ∧ configDoOptions sys fs path = configDoOptions sys fs2 path2 := by
  refine ⟨rfl, rfl, ?_, ?_, ?_, rfl, rfl, rfl, ?_, ?_, ?_, rfl⟩ <;>
    exact List.mem_append_right _ (by decide)

/-- Claim C3, counterexample: in start-frontend-config.py a bind
failure with "Address already in use" (errno 98 on Linux) prints the
port-conflict diagnostic, but no branch of the `except` handling calls
`sys.exit`, so `main` returns normally and the process exits with
status 0 — not a non-zero code. -/
theorem c3_config_exit_zero_counterexample :
    configServeExcept 3000 (.osErrorEvent ⟨98, "[Errno 98] Address already in use"⟩)
      = (.portInUse 3000, none) := by
  have h : containsSub "Address already in use".data
      ("[Errno 98] Address already in use" : String).data = true := by decide
  simp [configServeExcept, h]

/-- Claim C3, amended: on a bind failure dev-server.py prints a
diagnostic and exits with code 1 — naming the conflicting port 3000
when `errno == 48` (macOS `EADDRINUSE`), a generic bind-failure message
otherwise (on Linux, where `EADDRINUSE` is 98, the port is not named) —
while start-frontend-config.py prints a port-naming diagnostic when the
error message contains "Address already in use" but never calls
`sys.exit` from its handler, so its process exits with status 0 on
every serve-loop event. -/
theorem c3_bind_failure_amended (e : PyOSError) (s : String) (p : Nat) (ev : ConfigRunEvent) :
    (devServeExcept (.bindFailed e)).2 = some 1
  ∧ devServeExcept (.bindFailed ⟨48, s⟩) = (.portInUse 3000, some 1)
  ∧ devServeExcept .interrupted = (.shutdownMsg, none)
  ∧ (configServeExcept p ev).2 = none := by
  refine ⟨?_, rfl, rfl, ?_⟩
  · simp only [devServeExcept]
    split <;> rfl
  · cases ev with
    | osErrorEvent e2 => simp only [configServeExcept]; split <;> rfl
    | _ => rfl

/-- Claim C10: when the `static` directory exists, dev-server.py
changes the working directory to it before any request is served and
never changes it again: the final cwd is the original with `static`
appended, the accept loop resolves request paths against exactly that
directory, the printed directory equals it, and the command sequence
performs exactly one chdir (none at all when `static` is missing, in
which case the script exits 1 instead). -/
theorem c10_chdir_persistent (orig : List String) :
    runCwd (devStartServerScript true) orig = orig ++ ["static"]
  ∧ serveCwds (devStartServerScript true) orig = [orig ++ ["static"]]
  ∧ printedCwds (devStartServerScript true) orig = [orig ++ ["static"]]
  ∧ chdirOps (devStartServerScript true) = ["static"]
  ∧ chdirOps (devStartServerScript false) = []
  ∧ devStartServerScript false = [.printOutput, .exitWith 1] := by
  exact ⟨rfl, rfl, rfl, rfl, rfl, rfl⟩
